import Mathlib

/-!
Shallow embedding of the Express/MySQL backend of the User-Management-App
repository (src/backend/server.js) and proofs about its behaviour.

The `users` table is modelled as a list of rows in insertion order together
with the AUTO_INCREMENT counter.  HTTP handlers become pure functions from a
database state plus a request to a JSON-ish response (and the new database
state for the mutating ones).  JSON objects are modelled as association lists
from field names to values, so that the presence or absence of a field (for
instance the password hash) is a provable statement.

External primitives are modelled as follows:
* bcryptjs: `bcryptHash` is an injective encoding of the plaintext; the spec
  only relies on deterministic verification, which this model has.
* jsonwebtoken: `jwt.verify` either fails (malformed/bad-signature/expired
  token) or yields the signed claims, so a presented token is modelled as
  either `Token.invalid` or `Token.valid c` for the claims `c` it carries.
* mysql2: parameterized statements are translated to list operations; an
  `undefined` bind parameter (a destructured body field that was absent)
  makes the driver reject the statement, which the handler's catch-all turns
  into an HTTP 500 response.
Route ids are modelled as the numeric id they denote (the data model declares
`id` an integer).
-/

namespace UserMgmt

/-- A JSON value as it appears in this API's responses: a string or a number. -/
inductive JVal where
  | s : String → JVal
  | n : Nat → JVal
deriving Repr, DecidableEq

/-- A stored row of the `users` table (schema from the CREATE TABLE statement in
server.js: id, username, email, password, full_name, role, created_at). -/
structure Row where
  id : Nat
  username : String
  email : String
  password : String
  full_name : String
  role : String
  created_at : Nat
deriving Repr, DecidableEq

/-- The database: the `users` table rows in insertion order, plus the
AUTO_INCREMENT counter for the next id. -/
structure Db where
  rows : List Row
  nextId : Nat
deriving Repr, DecidableEq

/-- Model of bcrypt.hash: an injective encoding of the plaintext.  The code
relies only on deterministic verification of a plaintext against a stored
hash, which this model captures. -/
def bcryptHash (plain : String) : String := "bcrypt$" ++ plain

/-- Model of bcrypt.compare: verification succeeds exactly when the hash is
the hash of the plaintext. -/
def bcryptCompare (plain hash : String) : Bool := bcryptHash plain == hash

/-- The claims payload signed into a JWT by the login handler:
userId, username and role. -/
structure Claims where
  userId : Nat
  username : String
  role : String
deriving Repr, DecidableEq

/-- A bearer token as seen by jwt.verify: either a valid token carrying its
signed claims, or one that fails verification (malformed, bad signature or
expired). -/
inductive Token where
  | valid : Claims → Token
  | invalid : Token
deriving Repr, DecidableEq

/-- Outcome of the authenticateToken middleware. -/
inductive AuthResult where
  | unauthenticated : AuthResult
  | forbidden : AuthResult
  | ok : Claims → AuthResult
deriving Repr, DecidableEq

/-- authenticateToken (server.js lines 160-171): missing token → 401,
jwt.verify failure → 403, otherwise the claims are attached to the request. -/
def authenticateToken : Option Token → AuthResult
  | none => AuthResult.unauthenticated
  | some Token.invalid => AuthResult.forbidden
  | some (Token.valid c) => AuthResult.ok c

/-- An HTTP JSON response, flattened: the status code plus the fields the
handlers of server.js actually emit (`error`, `message`, a user object, a
users array, a token).  `res.sendStatus` responses leave every body field
`none`. -/
structure Response where
  status : Nat
  error : Option String := none
  message : Option String := none
  user : Option (List (String × JVal)) := none
  users : Option (List (List (String × JVal))) := none
  token : Option Claims := none
deriving Repr, DecidableEq

/-- JavaScript `x || d` for string-valued fields: the empty string (and an
absent field, which this model folds into the empty string where the handler
only ever tests falsiness) is replaced by the default. -/
def jsOrStr (s d : String) : String := if s == "" then d else s

/-- Request body of POST /api/register.  The handler destructures username,
email, password, full_name and role and only ever tests these for JS
falsiness or passes them through `|| default`, so an absent field is modelled
as the empty string. -/
structure RegisterBody where
  username : String
  email : String
  password : String
  full_name : String
  role : String
deriving Repr, DecidableEq

/-- The row inserted by the register handler (server.js lines 236-241):
INSERT INTO users (username, email, password, full_name, role) with
values [username, email, hashedPassword, full_name || '', role || 'user']. -/
def newRow (db : Db) (b : RegisterBody) : Row :=
  { id := db.nextId
    username := b.username
    email := b.email
    password := bcryptHash b.password
    full_name := b.full_name
    role := jsOrStr b.role "user"
    created_at := 0 }

/-- The insert phase of the register handler: the INSERT either violates a
UNIQUE constraint (ER_DUP_ENTRY, caught and mapped to 400, lines 268-270) or
appends the row and answers 201 with the created user's public fields
(lines 246-260). -/
def registerInsert (db : Db) (b : RegisterBody) : Response × Db :=
  if db.rows.any (fun r => r.username == b.username || r.email == b.email) then
    ({ status := 400, error := some "Username or email already exists" }, db)
  else
    ({ status := 201
       message := some "User created successfully"
       user := some [("id", JVal.n db.nextId), ("username", JVal.s b.username),
                     ("email", JVal.s b.email), ("full_name", JVal.s b.full_name),
                     ("role", JVal.s (jsOrStr b.role "user"))] },
     { rows := db.rows ++ [newRow db b], nextId := db.nextId + 1 })

/-- POST /api/register (server.js lines 181-274): required-field check, then
SELECT * FROM users WHERE username = ? OR email = ?; on a hit the first row
decides the duplicate message; otherwise the row is hashed and inserted. -/
def register (db : Db) (b : RegisterBody) : Response × Db :=
  if b.username == "" || b.email == "" || b.password == "" then
    ({ status := 400, error := some "Username, email, and password are required" }, db)
  else
    match db.rows.find? (fun r => r.username == b.username || r.email == b.email) with
    | some ex =>
      if ex.email == b.email then
        ({ status := 400, error := some "Email already registered" }, db)
      else if ex.username == b.username then
        ({ status := 400, error := some "Username already taken" }, db)
      else
        registerInsert db b
    | none => registerInsert db b

/-- Request body of POST /api/login: the identity goes in `username`
(matched against username or email), plus the password.  Absent fields are
the empty string (the handler only tests falsiness). -/
structure LoginBody where
  username : String
  password : String
deriving Repr, DecidableEq

/-- The fixed response both login failure branches produce
(server.js lines 292-301): 401 with body error 'Invalid credentials'. -/
def invalidCredentialsResponse : Response :=
  { status := 401, error := some "Invalid credentials" }

/-- POST /api/login (server.js lines 277-329): required-field check, then
SELECT * FROM users WHERE username = ? OR email = ? and the first row is
checked with bcrypt.compare; success signs a JWT with userId/username/role
and returns the public user record. -/
def login (db : Db) (b : LoginBody) : Response :=
  if b.username == "" || b.password == "" then
    { status := 400, error := some "Username and password are required" }
  else
    match db.rows.find? (fun r => r.username == b.username || r.email == b.username) with
    | none => invalidCredentialsResponse
    | some u =>
      if !bcryptCompare b.password u.password then
        invalidCredentialsResponse
      else
        { status := 200
          message := some "Login successful"
          token := some { userId := u.id, username := u.username, role := jsOrStr u.role "user" }
          user := some [("id", JVal.n u.id), ("username", JVal.s u.username),
                        ("email", JVal.s u.email), ("full_name", JVal.s u.full_name),
                        ("role", JVal.s (jsOrStr u.role "user"))] }

/-- The projection SELECT id, username, email, full_name, role, created_at
used by GET /api/users and GET /api/users/:id: the row without its password
column. -/
def selectPublicRow (r : Row) : List (String × JVal) :=
  [("id", JVal.n r.id), ("username", JVal.s r.username), ("email", JVal.s r.email),
   ("full_name", JVal.s r.full_name), ("role", JVal.s r.role),
   ("created_at", JVal.n r.created_at)]

/-- GET /api/users (server.js lines 332-344): behind authenticateToken only;
returns every row of the table through the password-free projection, in table
(= insertion) order. -/
def listUsers (db : Db) (tok : Option Token) : Response :=
  match authenticateToken tok with
  | AuthResult.unauthenticated => { status := 401 }
  | AuthResult.forbidden => { status := 403 }
  | AuthResult.ok _ => { status := 200, users := some (db.rows.map selectPublicRow) }

/-- GET /api/users/:id (server.js lines 347-365): behind authenticateToken
only; 404 when no row has the id, otherwise the password-free projection of
the first matching row. -/
def getUser (db : Db) (tok : Option Token) (id : Nat) : Response :=
  match authenticateToken tok with
  | AuthResult.unauthenticated => { status := 401 }
  | AuthResult.forbidden => { status := 403 }
  | AuthResult.ok _ =>
    match db.rows.find? (fun r => r.id == id) with
    | none => { status := 404, error := some "User not found" }
    | some r => { status := 200, user := some (selectPublicRow r) }

/-- Request body of PUT /api/users/:id.  The handler destructures username,
email and full_name and passes username and email to the driver raw, so here
an absent field must be distinguished from an empty one: `none` is JS
`undefined`. -/
structure UpdateBody where
  username : Option String
  email : Option String
  full_name : Option String
deriving Repr, DecidableEq

/-- PUT /api/users/:id (server.js lines 368-390): behind authenticateToken
only; runs UPDATE users SET username = ?, email = ?, full_name = ? WHERE
id = ? with [username, email, full_name || '', id].  An absent username or
email is an `undefined` bind parameter, which mysql2 rejects and the catch-all
turns into 500.  Zero matched rows → 404; a UNIQUE violation on another row →
ER_DUP_ENTRY → 400; otherwise all three columns are overwritten. -/
def updateUser (db : Db) (tok : Option Token) (id : Nat) (b : UpdateBody) :
    Response × Db :=
  match authenticateToken tok with
  | AuthResult.unauthenticated => ({ status := 401 }, db)
  | AuthResult.forbidden => ({ status := 403 }, db)
  | AuthResult.ok _ =>
    match b.username, b.email with
    | some u, some e =>
      if db.rows.any (fun r => r.id == id) then
        if db.rows.any (fun r => r.id != id && (r.username == u || r.email == e)) then
          ({ status := 400, error := some "Username or email already exists" }, db)
        else
          ({ status := 200, message := some "User updated successfully" },
           { db with rows := db.rows.map (fun r =>
               if r.id == id then
                 { r with username := u, email := e, full_name := b.full_name.getD "" }
               else r) })
      else
        ({ status := 404, error := some "User not found" }, db)
    | _, _ => ({ status := 500, error := some "Failed to update user" }, db)

/-- DELETE /api/users/:id (server.js lines 393-413): behind authenticateToken
only; the handler first refuses id 1 ('Cannot delete admin account', 403)
before touching the database, then DELETE FROM users WHERE id = ?; zero
affected rows → 404, otherwise 200. -/
def deleteUser (db : Db) (tok : Option Token) (id : Nat) : Response × Db :=
  match authenticateToken tok with
  | AuthResult.unauthenticated => ({ status := 401 }, db)
  | AuthResult.forbidden => ({ status := 403 }, db)
  | AuthResult.ok _ =>
    if id == 1 then
      ({ status := 403, error := some "Cannot delete admin account" }, db)
    else if db.rows.any (fun r => r.id == id) then
      ({ status := 200, message := some "User deleted successfully" },
       { db with rows := db.rows.filter (fun r => r.id != id) })
    else
      ({ status := 404, error := some "User not found" }, db)

/-- The seeded administrator row (createAdminAccount, server.js lines
122-157): username admin, email admin@admin.com, password bcrypt('admin123'),
full name Administrator, role admin; on a fresh database AUTO_INCREMENT
assigns it id 1. -/
def adminRow : Row :=
  { id := 1
    username := "admin"
    email := "admin@admin.com"
    password := bcryptHash "admin123"
    full_name := "Administrator"
    role := "admin"
    created_at := 0 }

/-- A fresh database right after startup seeding: just the admin row. -/
def initialDb : Db := { rows := [adminRow], nextId := 2 }

/-- An ordinary registered user used as a concrete test fixture. -/
def bobRow : Row :=
  { id := 2
    username := "bob"
    email := "bob@x.com"
    password := bcryptHash "Str0ng!pw"
    full_name := "Bob Builder"
    role := "user"
    created_at := 0 }

/-- A database holding the admin and one ordinary user. -/
def twoUserDb : Db := { rows := [adminRow, bobRow], nextId := 3 }

/-- Claims as signed for the seeded admin. -/
def adminClaims : Claims := { userId := 1, username := "admin", role := "admin" }

/-- Claims as signed for the ordinary user bob (role user, not admin). -/
def userClaims : Claims := { userId := 2, username := "bob", role := "user" }

/-- A JSON user object carries no password field. -/
def objNoPw (u : List (String × JVal)) : Bool :=
  !((u.map Prod.fst).contains "password")

/-- No user object anywhere in a response carries a password field. -/
def respNoPw (r : Response) : Bool :=
  (match r.user with
   | none => true
   | some u => objNoPw u) &&
  (match r.users with
   | none => true
   | some us => us.all objNoPw)

/-- Every row of the table has a non-empty password-hash column. -/
def rowsHashed (l : List Row) : Bool := l.all (fun r => r.password != "")

/-- A list of ids is strictly ascending. -/
def ascending : List Nat → Bool
  | [] => true
  | [_] => true
  | a :: b :: t => decide (a < b) && ascending (b :: t)

/-- The id field of a JSON user object (0 if absent, never hit below). -/
def userObjId (u : List (String × JVal)) : Nat :=
  match u.find? (fun kv => kv.1 == "id") with
  | some (_, JVal.n i) => i
  | _ => 0

/-- The ids of the user objects in a response's users array. -/
def respUserIds (r : Response) : List Nat := (r.users.getD []).map userObjId

/-- A hash produced by the credential hasher is never the empty string. -/
theorem bcryptHash_ne_empty (p : String) : (bcryptHash p != "") = true := by
  rw [bne_iff_ne]
  intro h
  have hl : ("bcrypt$" ++ p).length = ("" : String).length := congrArg String.length h
  rw [String.length_append] at hl
  have h7 : ("bcrypt$" : String).length = 7 := rfl
  have h0 : ("" : String).length = 0 := rfl
  omega

/-- The password-free projection indeed has no password key. -/
theorem objNoPw_selectPublicRow (r : Row) : objNoPw (selectPublicRow r) = true := rfl

/-- Mapping the password-free projection over any row list yields only
password-free objects. -/
theorem all_objNoPw_map (l : List Row) :
    (l.map selectPublicRow).all objNoPw = true := by
  induction l with
  | nil => rfl
  | cons r t ih => simp [List.map_cons, List.all_cons, objNoPw_selectPublicRow, ih]

/-- The id field of the projection of a row is the row's id. -/
theorem userObjId_selectPublicRow (r : Row) : userObjId (selectPublicRow r) = r.id := rfl

/-- Extracting ids from the projected rows recovers the rows' ids. -/
theorem map_userObjId_selectPublicRow (l : List Row) :
    (l.map selectPublicRow).map userObjId = l.map Row.id := by
  induction l with
  | nil => rfl
  | cons r t ih => simp [List.map_cons, userObjId_selectPublicRow, ih]

/-- A list of length at most one has at most one member. -/
theorem mem_eq_of_length_le_one {α : Type} {l : List α} (h : l.length ≤ 1)
    {a b : α} (ha : a ∈ l) (hb : b ∈ l) : a = b := by
  match l with
  | [] => cases ha
  | [x] =>
    rw [List.mem_singleton] at ha hb
    rw [ha, hb]
  | x :: y :: t =>
    simp [List.length_cons] at h

/-- The tail of an ascending list is ascending. -/
theorem ascending_tail {a : Nat} {l : List Nat} (h : ascending (a :: l) = true) :
    ascending l = true := by
  match l with
  | [] => rfl
  | b :: t =>
    have hab : (decide (a < b) && ascending (b :: t)) = true := h
    exact (Bool.and_eq_true_iff.mp hab).2

/-- In an ascending list, the head is below every element of the tail. -/
theorem ascending_head_lt {l : List Nat} :
    ∀ {a : Nat}, ascending (a :: l) = true → ∀ x ∈ l, a < x := by
  induction l with
  | nil =>
    intro a _ x hx
    cases hx
  | cons b t ih =>
    intro a h x hx
    have hab : a < b := by
      have h2 : (decide (a < b) && ascending (b :: t)) = true := h
      exact of_decide_eq_true (Bool.and_eq_true_iff.mp h2).1
    rcases List.mem_cons.mp hx with rfl | hxt
    · exact hab
    · exact lt_trans hab (ih (ascending_tail h) x hxt)

/-- Deleting by id from a table with strictly ascending ids removes exactly
one row when the id is present. -/
theorem filter_ne_length_of_ascending (l : List Row) (id : Nat)
    (hasc : ascending (l.map Row.id) = true)
    (hmem : l.any (fun r => r.id == id) = true) :
    (l.filter (fun r => r.id != id)).length + 1 = l.length := by
  induction l with
  | nil => simp at hmem
  | cons r t ih =>
    by_cases hr : r.id = id
    · have ht : t.filter (fun r => r.id != id) = t := by
        apply List.filter_eq_self.mpr
        intro x hx
        have hlt : r.id < x.id :=
          ascending_head_lt hasc x.id (List.mem_map_of_mem Row.id hx)
        simp only [bne_iff_ne, ne_eq]
        omega
      simp [List.filter_cons, hr, ht]
    · have ht : t.any (fun r => r.id == id) = true := by
        simp only [List.any_cons, Bool.or_eq_true, beq_iff_eq] at hmem
        rcases hmem with h | h
        · exact absurd h hr
        · simpa using h
      have ihr := ih (ascending_tail hasc) ht
      have hkeep : (r.id != id) = true := by
        rw [bne_iff_ne]
        exact hr
      simp only [List.filter_cons, hkeep, if_true, List.length_cons]
      omega

/-- C1 (amended): the gated operations listUsers, getUser, updateUser and
deleteUser require only a syntactically valid token — no token is rejected
with 401 and an invalid one with 403 — but the role claim is never examined:
every operation behaves identically whether the caller's role claim is
'admin' or anything else. -/
theorem admin_gate_ignores_role (db : Db) (c : Claims) (id : Nat) (b : UpdateBody) :
    listUsers db (some (Token.valid c)) =
      listUsers db (some (Token.valid { c with role := "admin" })) ∧
    getUser db (some (Token.valid c)) id =
      getUser db (some (Token.valid { c with role := "admin" })) id ∧
    updateUser db (some (Token.valid c)) id b =
      updateUser db (some (Token.valid { c with role := "admin" })) id b ∧
    deleteUser db (some (Token.valid c)) id =
      deleteUser db (some (Token.valid { c with role := "admin" })) id ∧
    (listUsers db none).status = 401 ∧
    (listUsers db (some Token.invalid)).status = 403 :=
  ⟨rfl, rfl, rfl, rfl, rfl, rfl⟩

/-- C1 counterexample: a valid token whose role claim is 'user' (not 'admin')
is not rejected by the admin-gated operations: listUsers answers 200 with the
full user list and deleteUser of another user answers 200. -/
theorem user_role_token_not_rejected :
    userClaims.role ≠ "admin" ∧
    (listUsers twoUserDb (some (Token.valid userClaims))).status = 200 ∧
    (listUsers twoUserDb (some (Token.valid userClaims))).users =
      some [selectPublicRow adminRow, selectPublicRow bobRow] ∧
    (deleteUser twoUserDb (some (Token.valid userClaims)) 2).1.status = 200 := by
  refine ⟨by decide, rfl, rfl, rfl⟩

/-- C2: the update handler binds all three columns unconditionally, so the
partial update updateUser(2, with only email and full_name supplied) does not
preserve the omitted username: the absent field becomes an undefined bind
parameter and the request fails with 500 leaving the store unchanged; and
when only full_name is omitted it is overwritten with the empty string
instead of being kept. -/
theorem update_omitted_fields_lost :
    updateUser twoUserDb (some (Token.valid adminClaims)) 2
        { username := none, email := some "updated-test@example.com",
          full_name := some "Updated Test User" } =
      ({ status := 500, error := some "Failed to update user" }, twoUserDb) ∧
    (updateUser twoUserDb (some (Token.valid adminClaims)) 2
        { username := some "bob", email := some "bob@x.com", full_name := none }).2.rows =
      [adminRow, { bobRow with full_name := "" }] := by
  refine ⟨rfl, by decide⟩

/-- C3: the register handler performs no email-grammar check: a registration
whose email is 'invalid-email' is answered 201 and a user row is inserted,
where the claim (and the repository's own api.test.js) demand a 400
ValidationError with no row created. -/
theorem register_accepts_invalid_email :
    (register initialDb
        { username := "testuser4", email := "invalid-email",
          password := "TestPassword123!", full_name := "Test User 4", role := "" }).1.status
      = 201 ∧
    (register initialDb
        { username := "testuser4", email := "invalid-email",
          password := "TestPassword123!", full_name := "Test User 4", role := "" }).2.rows.length
      = initialDb.rows.length + 1 := by
  refine ⟨rfl, by decide⟩

/-- C4: the register handler performs no markup/script-injection check: a
registration whose username is an HTML script tag and whose full name is an
injected img tag is answered 201 and a user row is inserted, where the claim
(and the repository's own api.test.js) demand a 400 ValidationError with no
row created. -/
theorem register_accepts_markup :
    (register initialDb
        { username := "<script>alert(\"xss\")</script>", email := "xss@example.com",
          password := "TestPassword123!",
          full_name := "<img src=\"x\" onerror=\"alert(1)\">", role := "" }).1.status
      = 201 ∧
    (register initialDb
        { username := "<script>alert(\"xss\")</script>", email := "xss@example.com",
          password := "TestPassword123!",
          full_name := "<img src=\"x\" onerror=\"alert(1)\">", role := "" }).2.rows.length
      = initialDb.rows.length + 1 := by
  refine ⟨rfl, by decide⟩

/-- C5: every stored row keeps a password hash (registration inserts the
bcrypt hash, which is never empty), while no outward representation built by
register, login, listUsers or getUser ever contains a password field. -/
theorem responses_omit_password_hash (db : Db) (rb : RegisterBody) (lb : LoginBody)
    (tok : Option Token) (id : Nat) (h : rowsHashed db.rows = true) :
    respNoPw (register db rb).1 = true ∧
    rowsHashed (register db rb).2.rows = true ∧
    respNoPw (login db lb) = true ∧
    respNoPw (listUsers db tok) = true ∧
    respNoPw (getUser db tok id) = true := by
  have hins1 : respNoPw (registerInsert db rb).1 = true := by
    unfold registerInsert
    split
    · rfl
    · rfl
  have hins2 : rowsHashed (registerInsert db rb).2.rows = true := by
    unfold registerInsert
    split
    · exact h
    · simp only [rowsHashed, List.all_append, Bool.and_eq_true]
      refine ⟨h, ?_⟩
      simp [List.all_cons, newRow, bcryptHash_ne_empty]
  refine ⟨?_, ?_, ?_, ?_, ?_⟩
  · unfold register
    split
    · rfl
    · split
      · split
        · rfl
        · split
          · rfl
          · exact hins1
      · exact hins1
  · unfold register
    split
    · exact h
    · split
      · split
        · exact h
        · split
          · exact h
          · exact hins2
      · exact hins2
  · unfold login
    split
    · rfl
    · split
      · rfl
      · split
        · rfl
        · rfl
  · unfold listUsers
    split
    · rfl
    · rfl
    · simp [respNoPw, all_objNoPw_map]
  · unfold getUser
    split
    · rfl
    · rfl
    · split
      · rfl
      · simp [respNoPw, objNoPw_selectPublicRow]

/-- C5 witness: concrete instances of the password-omission property on the
seeded database. -/
theorem responses_omit_password_hash_witness :
    rowsHashed initialDb.rows = true ∧
    respNoPw (register initialDb
      { username := "eve", email := "eve@x.com", password := "pw12",
        full_name := "", role := "" }).1 = true ∧
    respNoPw (login initialDb
      { username := "admin@admin.com", password := "admin123" }) = true ∧
    respNoPw (listUsers initialDb (some (Token.valid adminClaims))) = true ∧
    respNoPw (getUser initialDb (some (Token.valid adminClaims)) 1) = true := by
  have hc := responses_omit_password_hash initialDb
    { username := "eve", email := "eve@x.com", password := "pw12",
      full_name := "", role := "" }
    { username := "admin@admin.com", password := "admin123" }
    (some (Token.valid adminClaims)) 1 (by decide)
  exact ⟨by decide, hc.1, hc.2.2.1, hc.2.2.2.1, hc.2.2.2.2⟩

/-- C6: with both fields supplied and the identity matching at most one row,
login succeeds (200) exactly when some stored user matches the identity by
username or email and the password verifies against that user's stored hash;
and every failing login returns the one fixed response — 401 with error
'Invalid credentials' — so an unknown identity and a wrong password are
observationally indistinguishable. -/
theorem login_success_iff_uniform_failure (db : Db) (b : LoginBody)
    (hu : b.username ≠ "") (hp : b.password ≠ "")
    (huniq : (db.rows.filter
        (fun r => r.username == b.username || r.email == b.username)).length ≤ 1) :
    ((login db b).status = 200 ↔
      ∃ u, u ∈ db.rows ∧ (u.username = b.username ∨ u.email = b.username) ∧
        bcryptCompare b.password u.password = true) ∧
    ((login db b).status ≠ 200 → login db b = invalidCredentialsResponse) := by
  have h1 : (b.username == "") = false := by
    rw [beq_eq_false_iff_ne]
    exact hu
  have h2 : (b.password == "") = false := by
    rw [beq_eq_false_iff_ne]
    exact hp
  cases hfind : db.rows.find? (fun r => r.username == b.username || r.email == b.username) with
  | none =>
    have hresp : login db b = invalidCredentialsResponse := by
      unfold login
      rw [h1, h2, hfind]
      rfl
    refine ⟨?_, fun _ => hresp⟩
    rw [hresp]
    constructor
    · intro hs
      exact absurd hs (by decide)
    · rintro ⟨u, hmem, hmatch, _⟩
      exfalso
      have hnone := List.find?_eq_none.mp hfind u hmem
      apply hnone
      rcases hmatch with h | h
      · simp [h]
      · simp [h]
  | some u =>
    have hstep : login db b =
        if (!bcryptCompare b.password u.password) = true then invalidCredentialsResponse
        else { status := 200, message := some "Login successful",
               user := some [("id", JVal.n u.id), ("username", JVal.s u.username),
                             ("email", JVal.s u.email), ("full_name", JVal.s u.full_name),
                             ("role", JVal.s (jsOrStr u.role "user"))],
               token := some { userId := u.id, username := u.username,
                               role := jsOrStr u.role "user" } } := by
      unfold login
      rw [h1, h2, hfind]
      rfl
    cases hcmp : bcryptCompare b.password u.password with
    | false =>
      have hresp : login db b = invalidCredentialsResponse := by
        rw [hstep, hcmp]
        rfl
      refine ⟨?_, fun _ => hresp⟩
      rw [hresp]
      constructor
      · intro hs
        exact absurd hs (by decide)
      · rintro ⟨w, hmemw, hmatchw, hcmpw⟩
        exfalso
        have humem1 : u ∈ db.rows := List.mem_of_find?_eq_some hfind
        have humem2 := List.find?_some hfind
        have humem : u ∈ db.rows.filter
            (fun r => r.username == b.username || r.email == b.username) :=
          List.mem_filter.mpr ⟨humem1, humem2⟩
        have hwmem2 : (w.username == b.username || w.email == b.username) = true := by
          rcases hmatchw with h | h
          · simp [h]
          · simp [h]
        have hwmem : w ∈ db.rows.filter
            (fun r => r.username == b.username || r.email == b.username) :=
          List.mem_filter.mpr ⟨hmemw, hwmem2⟩
        have hwu : w = u := mem_eq_of_length_le_one huniq hwmem humem
        rw [hwu, hcmp] at hcmpw
        exact Bool.noConfusion hcmpw
    | true =>
      have hresp : (login db b).status = 200 := by
        rw [hstep, hcmp]
        rfl
      refine ⟨⟨fun _ => ?_, fun _ => hresp⟩, fun hne => absurd hresp hne⟩
      refine ⟨u, List.mem_of_find?_eq_some hfind, ?_, hcmp⟩
      have hpred := List.find?_some hfind
      rcases Bool.or_eq_true_iff.mp hpred with h | h
      · exact Or.inl (eq_of_beq h)
      · exact Or.inr (eq_of_beq h)

/-- C6 witness: the seeded admin's login by email succeeds and the iff and
uniform-failure statements hold at that concrete call. -/
theorem login_success_iff_uniform_failure_witness :
    ((login initialDb { username := "admin@admin.com", password := "admin123" }).status = 200 ↔
      ∃ u, u ∈ initialDb.rows ∧
        (u.username = "admin@admin.com" ∨ u.email = "admin@admin.com") ∧
        bcryptCompare "admin123" u.password = true) ∧
    ((login initialDb { username := "admin@admin.com", password := "admin123" }).status ≠ 200 →
      login initialDb { username := "admin@admin.com", password := "admin123" } =
        invalidCredentialsResponse) :=
  login_success_iff_uniform_failure initialDb
    { username := "admin@admin.com", password := "admin123" }
    (by decide) (by decide) (by decide)

/-- C7: a registration whose username or email already exists in the store
(with the required fields present) is answered 400 with the store unchanged,
and the message names the colliding field: the first matching row decides —
an email collision reports 'Email already registered', otherwise the
username collision reports 'Username already taken'. -/
theorem duplicate_registration_rejected (db : Db) (b : RegisterBody)
    (hu : b.username ≠ "") (he : b.email ≠ "") (hp : b.password ≠ "")
    (hdup : ∃ r, r ∈ db.rows ∧ (r.username = b.username ∨ r.email = b.email)) :
    (register db b).1.status = 400 ∧
    (register db b).2 = db ∧
    (∀ ex, db.rows.find? (fun r => r.username == b.username || r.email == b.email) = some ex →
      (ex.email = b.email →
        (register db b).1.error = some "Email already registered") ∧
      (ex.email ≠ b.email →
        (register db b).1.error = some "Username already taken")) := by
  have h1 : (b.username == "") = false := by
    rw [beq_eq_false_iff_ne]
    exact hu
  have h2 : (b.email == "") = false := by
    rw [beq_eq_false_iff_ne]
    exact he
  have h3 : (b.password == "") = false := by
    rw [beq_eq_false_iff_ne]
    exact hp
  have hsome : (db.rows.find? (fun r => r.username == b.username || r.email == b.email)).isSome := by
    rw [List.find?_isSome]
    obtain ⟨r, hr, hmatch⟩ := hdup
    refine ⟨r, hr, ?_⟩
    rcases hmatch with h | h
    · simp [h]
    · simp [h]
  obtain ⟨ex, hfind⟩ := Option.isSome_iff_exists.mp hsome
  have hpred := List.find?_some hfind
  have hstep : register db b =
      if (ex.email == b.email) = true then
        ({ status := 400, error := some "Email already registered" }, db)
      else if (ex.username == b.username) = true then
        ({ status := 400, error := some "Username already taken" }, db)
      else registerInsert db b := by
    unfold register
    rw [h1, h2, h3, hfind]
    rfl
  by_cases hem : ex.email = b.email
  · have hem' : (ex.email == b.email) = true := beq_iff_eq.mpr hem
    have hresp : register db b =
        ({ status := 400, error := some "Email already registered" }, db) := by
      rw [hstep, hem']
      rfl
    refine ⟨by rw [hresp], by rw [hresp], ?_⟩
    intro ex' hfind'
    rw [hfind] at hfind'
    injection hfind' with hex
    subst hex
    exact ⟨fun _ => by rw [hresp], fun hne => absurd hem hne⟩
  · have hem' : (ex.email == b.email) = false := by
      rw [beq_eq_false_iff_ne]
      exact hem
    have husr : (ex.username == b.username) = true := by
      rcases Bool.or_eq_true_iff.mp hpred with h | h
      · exact h
      · exact absurd (eq_of_beq h) hem
    have hresp : register db b =
        ({ status := 400, error := some "Username already taken" }, db) := by
      rw [hstep, hem', husr]
      rfl
    refine ⟨by rw [hresp], by rw [hresp], ?_⟩
    intro ex' hfind'
    rw [hfind] at hfind'
    injection hfind' with hex
    subst hex
    exact ⟨fun h => absurd h hem, fun _ => by rw [hresp]⟩

/-- Registration attempt re-using the seeded admin's email. -/
def regDupBody : RegisterBody :=
  { username := "someone", email := "admin@admin.com", password := "pw",
    full_name := "", role := "" }

/-- C7 witness: re-registering the seeded admin's email is refused with the
email-specific message and the store is unchanged. -/
theorem duplicate_registration_rejected_witness :
    (register initialDb regDupBody).1.status = 400 ∧
    (register initialDb regDupBody).2 = initialDb ∧
    (∀ ex, initialDb.rows.find? (fun r =>
        r.username == regDupBody.username || r.email == regDupBody.email) = some ex →
      (ex.email = regDupBody.email →
        (register initialDb regDupBody).1.error = some "Email already registered") ∧
      (ex.email ≠ regDupBody.email →
        (register initialDb regDupBody).1.error = some "Username already taken")) :=
  duplicate_registration_rejected initialDb regDupBody (by decide) (by decide) (by decide)
    ⟨adminRow, by decide, Or.inr rfl⟩

/-- C8: for any store whose ids ascend (the AUTO_INCREMENT insertion
invariant), listUsers under a valid token returns exactly the projection of
every stored row, in store order; the returned ids are the stored ids in
ascending order; and no returned object carries a password field. -/
theorem listUsers_complete_ordered (db : Db) (c : Claims)
    (h : ascending (db.rows.map Row.id) = true) :
    (listUsers db (some (Token.valid c))).users = some (db.rows.map selectPublicRow) ∧
    respUserIds (listUsers db (some (Token.valid c))) = db.rows.map Row.id ∧
    ascending (respUserIds (listUsers db (some (Token.valid c)))) = true ∧
    respNoPw (listUsers db (some (Token.valid c))) = true := by
  have hids : respUserIds (listUsers db (some (Token.valid c))) = db.rows.map Row.id := by
    show (db.rows.map selectPublicRow).map userObjId = db.rows.map Row.id
    exact map_userObjId_selectPublicRow db.rows
  refine ⟨rfl, hids, ?_, ?_⟩
  · rw [hids]
    exact h
  · simp [respNoPw, listUsers, authenticateToken, all_objNoPw_map]

/-- C8 witness: the complete-ordered-no-password statement at the two-user
store under the admin's token. -/
theorem listUsers_complete_ordered_witness :
    ascending (twoUserDb.rows.map Row.id) = true ∧
    ((listUsers twoUserDb (some (Token.valid adminClaims))).users =
        some (twoUserDb.rows.map selectPublicRow) ∧
      respUserIds (listUsers twoUserDb (some (Token.valid adminClaims))) =
        twoUserDb.rows.map Row.id ∧
      ascending (respUserIds (listUsers twoUserDb (some (Token.valid adminClaims)))) = true ∧
      respNoPw (listUsers twoUserDb (some (Token.valid adminClaims))) = true) :=
  ⟨by decide, listUsers_complete_ordered twoUserDb adminClaims (by decide)⟩

/-- C9: deleteUser refuses id 1 — the id the seeding gives the protected
admin record — with 403 for every caller, whatever the role claim, leaving
the store unchanged; a non-existent id is answered 404 with the store
unchanged; an existing id other than 1 is answered 200 and exactly the rows
with that id are removed — exactly one row when the store's ids ascend. -/
theorem deleteUser_contract (db : Db) (c : Claims) (id : Nat) :
    deleteUser db (some (Token.valid c)) 1 =
      ({ status := 403, error := some "Cannot delete admin account" }, db) ∧
    adminRow.id = 1 ∧
    (id ≠ 1 → db.rows.all (fun r => r.id != id) = true →
      deleteUser db (some (Token.valid c)) id =
        ({ status := 404, error := some "User not found" }, db)) ∧
    (id ≠ 1 → db.rows.any (fun r => r.id == id) = true →
      deleteUser db (some (Token.valid c)) id =
        ({ status := 200, message := some "User deleted successfully" },
         { db with rows := db.rows.filter (fun r => r.id != id) })) ∧
    (ascending (db.rows.map Row.id) = true → db.rows.any (fun r => r.id == id) = true →
      (db.rows.filter (fun r => r.id != id)).length + 1 = db.rows.length) := by
  refine ⟨rfl, rfl, ?_, ?_, fun hasc hmem => filter_ne_length_of_ascending db.rows id hasc hmem⟩
  · intro hne hall
    have h1 : (id == 1) = false := by
      rw [beq_eq_false_iff_ne]
      exact hne
    have hany : db.rows.any (fun r => r.id == id) = false := by
      rw [List.any_eq_false]
      intro x hx
      have hb := List.all_eq_true.mp hall x hx
      simp only [bne_iff_ne, ne_eq] at hb
      simp [hb]
    unfold deleteUser
    rw [h1, hany]
    rfl
  · intro hne hmem
    have h1 : (id == 1) = false := by
      rw [beq_eq_false_iff_ne]
      exact hne
    unfold deleteUser
    rw [h1, hmem]
    rfl

/-- C9 witness: on the two-user store, deleting id 1 is refused with 403,
deleting the absent id 99 is 404, and deleting id 2 succeeds removing
exactly one row. -/
theorem deleteUser_contract_witness :
    deleteUser twoUserDb (some (Token.valid adminClaims)) 1 =
      ({ status := 403, error := some "Cannot delete admin account" }, twoUserDb) ∧
    deleteUser twoUserDb (some (Token.valid adminClaims)) 99 =
      ({ status := 404, error := some "User not found" }, twoUserDb) ∧
    deleteUser twoUserDb (some (Token.valid adminClaims)) 2 =
      ({ status := 200, message := some "User deleted successfully" },
       { twoUserDb with rows := twoUserDb.rows.filter (fun r => r.id != 2) }) ∧
    (twoUserDb.rows.filter (fun r => r.id != 2)).length + 1 = twoUserDb.rows.length :=
  ⟨(deleteUser_contract twoUserDb adminClaims 2).1,
   (deleteUser_contract twoUserDb adminClaims 99).2.2.1 (by decide) (by decide),
   (deleteUser_contract twoUserDb adminClaims 2).2.2.2.1 (by decide) (by decide),
   (deleteUser_contract twoUserDb adminClaims 2).2.2.2.2 (by decide) (by decide)⟩

/-- C10: register runs with no token input at all (its signature takes only
the store and the request body) and stores the caller-supplied role claim
verbatim: with the required fields present and no duplicate, the call answers
201 and appends the new row, whose role equals the supplied role whenever one
is supplied — in particular a caller-chosen 'admin' — and defaults to 'user'
exactly when the role field is absent. -/
theorem register_stores_caller_role (db : Db) (b : RegisterBody)
    (hu : b.username ≠ "") (he : b.email ≠ "") (hp : b.password ≠ "")
    (hfresh : db.rows.all (fun r => r.username != b.username && r.email != b.email) = true) :
    (register db b).1.status = 201 ∧
    (register db b).2.rows = db.rows ++ [newRow db b] ∧
    (b.role ≠ "" → (newRow db b).role = b.role) ∧
    (b.role = "" → (newRow db b).role = "user") := by
  have h1 : (b.username == "") = false := by
    rw [beq_eq_false_iff_ne]
    exact hu
  have h2 : (b.email == "") = false := by
    rw [beq_eq_false_iff_ne]
    exact he
  have h3 : (b.password == "") = false := by
    rw [beq_eq_false_iff_ne]
    exact hp
  have hforall : ∀ x ∈ db.rows, ¬ (x.username == b.username || x.email == b.email) = true := by
    intro x hx
    have hb := List.all_eq_true.mp hfresh x hx
    simp only [Bool.and_eq_true, bne_iff_ne, ne_eq] at hb
    simp only [Bool.or_eq_true_iff, beq_iff_eq, not_or]
    exact ⟨hb.1, hb.2⟩
  have hnone : db.rows.find? (fun r => r.username == b.username || r.email == b.email) = none :=
    List.find?_eq_none.mpr hforall
  have hany : db.rows.any (fun r => r.username == b.username || r.email == b.email) = false :=
    List.any_eq_false.mpr hforall
  have hresp : register db b =
      ({ status := 201, message := some "User created successfully",
         user := some [("id", JVal.n db.nextId), ("username", JVal.s b.username),
                       ("email", JVal.s b.email), ("full_name", JVal.s b.full_name),
                       ("role", JVal.s (jsOrStr b.role "user"))] },
       { rows := db.rows ++ [newRow db b], nextId := db.nextId + 1 }) := by
    unfold register registerInsert
    rw [h1, h2, h3, hnone, hany]
    rfl
  refine ⟨by rw [hresp], by rw [hresp], ?_, ?_⟩
  · intro hr
    have hr' : (b.role == "") = false := by
      rw [beq_eq_false_iff_ne]
      exact hr
    simp [newRow, jsOrStr, hr']
  · intro hr
    simp [newRow, jsOrStr, hr]

/-- Unauthenticated registration that asks for the admin role. -/
def regAdminBody : RegisterBody :=
  { username := "eve", email := "eve@x.com", password := "pw123",
    full_name := "", role := "admin" }

/-- C10 witness: registering with role 'admin' on the seeded store succeeds
and the stored row's role is 'admin'. -/
theorem register_stores_caller_role_witness :
    (register initialDb regAdminBody).1.status = 201 ∧
    (register initialDb regAdminBody).2.rows =
      initialDb.rows ++ [newRow initialDb regAdminBody] ∧
    (newRow initialDb regAdminBody).role = "admin" := by
  have hc := register_stores_caller_role initialDb regAdminBody (by decide) (by decide)
    (by decide) (by decide)
  exact ⟨hc.1, hc.2.1, hc.2.2.1 (by decide)⟩

end UserMgmt
